import Mathlib

/-!
Verification of the anti-scraping-defense pipeline (escalation engine,
webhook sink, tarpit, Markov generator, frequency tracker, metrics).
Each Python function named below is shallowly embedded as an executable
Lean definition over rationals, lists and strings; external effects
(Redis, HTTP, the PRNG, the relational store) are made explicit
parameters or state values.
-/

/- ---------------------------------------------------------------
   Generic string / list helpers (model of Python `in`, prefix tests,
   `str.strip`, `str.split`).  They operate on `List Char` because the
   built-in `String` functions do not reduce in the kernel.
   --------------------------------------------------------------- -/

/-- Model of a list being an initial segment of another (Python `startswith`). -/
def list_pref_of [DecidableEq α] : List α → List α → Bool
  | [], _ => true
  | _ :: _, [] => false
  | a :: as, b :: bs => decide (a = b) && list_pref_of as bs

/-- Model of Python substring containment (the `in` operator on strings). -/
def list_sub_of [DecidableEq α] (n : List α) : List α → Bool
  | [] => n.isEmpty
  | h :: hs => list_pref_of n (h :: hs) || list_sub_of n hs

/-- Boolean test: `p` is a prefix of `s`. -/
def str_starts (p s : String) : Bool := list_pref_of p.data s.data

/-- Boolean test: `n` occurs as a contiguous substring of `s` (Python `n in s`). -/
def str_has_sub (n s : String) : Bool := list_sub_of n.data s.data

theorem list_pref_of_append [DecidableEq α] (l r : List α) :
    list_pref_of l (l ++ r) = true := by
  induction l with
  | nil => rfl
  | cons a as ih => simp [list_pref_of, ih]

theorem list_pref_of_iff [DecidableEq α] (n h : List α) :
    list_pref_of n h = true ↔ ∃ r, h = n ++ r := by
  induction n generalizing h with
  | nil => simp [list_pref_of]
  | cons a as ih =>
    cases h with
    | nil => simp [list_pref_of]
    | cons b bs =>
      simp only [list_pref_of, Bool.and_eq_true, decide_eq_true_eq, ih]
      constructor
      · rintro ⟨rfl, r, rfl⟩
        exact ⟨r, rfl⟩
      · rintro ⟨r, hr⟩
        rw [List.cons_append] at hr
        cases hr
        exact ⟨rfl, r, rfl⟩

theorem list_sub_of_iff [DecidableEq α] (n h : List α) :
    list_sub_of n h = true ↔ ∃ p q, h = p ++ n ++ q := by
  induction h with
  | nil =>
    simp only [list_sub_of, List.isEmpty_iff]
    constructor
    · rintro rfl
      exact ⟨[], [], rfl⟩
    · rintro ⟨p, q, hq⟩
      rcases List.append_eq_nil.mp ((List.append_eq_nil).mp hq.symm).1 with ⟨_, h2⟩
      exact h2
  | cons b bs ih =>
    simp only [list_sub_of, Bool.or_eq_true, list_pref_of_iff, ih]
    constructor
    · rintro (⟨r, hr⟩ | ⟨p, q, hq⟩)
      · exact ⟨[], r, by simpa using hr⟩
      · exact ⟨b :: p, q, by simp [hq]⟩
    · rintro ⟨p, q, hq⟩
      cases p with
      | nil => exact Or.inl ⟨q, by simpa using hq⟩
      | cons c cs =>
        rw [List.cons_append, List.cons_append] at hq
        cases hq
        exact Or.inr ⟨cs, q, rfl⟩

/- ---------------------------------------------------------------
   Escalation Engine: rule score, combined score, decision ladder
   (escalation/escalation_engine.py, run_heuristic_and_model_analysis
   and handle_escalation).
   --------------------------------------------------------------- -/

/-- Clamp to the unit interval, the model of `max(0.0, min(1.0, x))`. -/
def clamp01 (x : ℚ) : ℚ := max 0 (min 1 x)

theorem clamp01_nonneg (x : ℚ) : 0 ≤ clamp01 x := le_max_left 0 _

theorem clamp01_le_one (x : ℚ) : clamp01 x ≤ 1 := by
  unfold clamp01
  rcases le_total x 1 with h | h
  · exact max_le (by norm_num) (min_le_left 1 x)
  · exact max_le (by norm_num) (min_le_left 1 x)

theorem clamp01_of_mem (x : ℚ) (h0 : 0 ≤ x) (h1 : x ≤ 1) : clamp01 x = x := by
  unfold clamp01
  rw [min_eq_right h1, max_eq_right h0]

/-- The feature values the heuristic in `run_heuristic_and_model_analysis`
reads from `extract_features` and the frequency tracker. -/
structure EscFeatures where
  ua_is_known_bad : Bool
  ua_is_known_benign_crawler : Bool
  ua_is_empty : Bool
  path_disallowed : Bool
  req_freq : ℕ
  time_since_last_sec : ℚ

/-- Rule score exactly as computed in `run_heuristic_and_model_analysis`
(escalation_engine.py lines 407-422): additive contributions, the time
condition being `time_since != -1.0 and time_since < 0.3`, then clamped. -/
def rule_score (f : EscFeatures) : ℚ :=
  let s1 : ℚ := if f.ua_is_known_bad ∧ ¬ f.ua_is_known_benign_crawler then 0.7 else 0
  let s2 : ℚ := s1 + (if f.ua_is_empty then 0.5 else 0)
  let s3 : ℚ := s2 + (if f.path_disallowed ∧ ¬ f.ua_is_known_benign_crawler then 0.6 else 0)
  let s4 : ℚ := s3 + (if 60 < f.req_freq then 0.3 else if 30 < f.req_freq then 0.1 else 0)
  let s5 : ℚ := s4 +
    (if f.time_since_last_sec ≠ -1 ∧ f.time_since_last_sec < 0.3 then 0.2 else 0)
  let s6 : ℚ := s5 - (if f.ua_is_known_benign_crawler then 0.5 else 0)
  clamp01 s6

/-- Reference rule score as worded by the specification: identical to
`rule_score` except that the time-gap bonus requires
`0 ≤ time_since_last < 0.3`. -/
def rule_score_reference (f : EscFeatures) : ℚ :=
  let s1 : ℚ := if f.ua_is_known_bad ∧ ¬ f.ua_is_known_benign_crawler then 0.7 else 0
  let s2 : ℚ := s1 + (if f.ua_is_empty then 0.5 else 0)
  let s3 : ℚ := s2 + (if f.path_disallowed ∧ ¬ f.ua_is_known_benign_crawler then 0.6 else 0)
  let s4 : ℚ := s3 + (if 60 < f.req_freq then 0.3 else if 30 < f.req_freq then 0.1 else 0)
  let s5 : ℚ := s4 +
    (if 0 ≤ f.time_since_last_sec ∧ f.time_since_last_sec < 0.3 then 0.2 else 0)
  let s6 : ℚ := s5 - (if f.ua_is_known_benign_crawler then 0.5 else 0)
  clamp01 s6

/-- Combined score of `run_heuristic_and_model_analysis` (lines 424-446):
`0.3*rule + 0.7*model` when a model prediction was produced, else the rule
score; then the optional IP-reputation bonus; then clamped to `[0,1]`.
`model_score = none` models a missing or failed classifier prediction. -/
def run_heuristic_and_model_analysis (f : EscFeatures) (model_score : Option ℚ)
    (ip_malicious : Bool) (bonus : ℚ) : ℚ :=
  let rule := rule_score f
  let combined : ℚ :=
    match model_score with
    | some m => 0.3 * rule + 0.7 * m
    | none => rule
  let adjusted : ℚ := if ip_malicious then combined + bonus else combined
  clamp01 adjusted

/-- Reference combined score as worded by the specification (same
combination, built on `rule_score_reference`). -/
def combined_score_reference (f : EscFeatures) (model_score : Option ℚ)
    (ip_malicious : Bool) (bonus : ℚ) : ℚ :=
  let rule := rule_score_reference f
  let combined : ℚ :=
    match model_score with
    | some m => 0.3 * rule + 0.7 * m
    | none => rule
  let adjusted : ℚ := if ip_malicious then combined + bonus else combined
  clamp01 adjusted

theorem rule_score_eq_reference (f : EscFeatures)
    (h : f.time_since_last_sec = -1 ∨ 0 ≤ f.time_since_last_sec) :
    rule_score f = rule_score_reference f := by
  unfold rule_score rule_score_reference
  rcases h with h | h
  · rw [h]
    norm_num
  · have hne : f.time_since_last_sec ≠ -1 := by
      intro hc
      rw [hc] at h
      norm_num at h
    simp only [hne, ne_eq, not_false_eq_true, true_and, h]

/-- Claim C1: for every escalation request (so that `time_since_last_sec`
is either the sentinel `-1` or a non-negative gap, which is all the
frequency tracker can produce under a monotone clock), the rule score of
`run_heuristic_and_model_analysis` coincides with the reference definition
of the specification, the combined score coincides with the reference
combination (`0.3*rule + 0.7*model` when the model prediction is present,
else the rule score, clamped to `[0,1]` after any IP-reputation bonus),
the final score lies in `[0,1]`, and with no model and clean reputation
the final score equals the rule score. -/
theorem C1_rule_and_combined_score_match_reference (f : EscFeatures)
    (model_score : Option ℚ) (ip_malicious : Bool) (bonus : ℚ)
    (h : f.time_since_last_sec = -1 ∨ 0 ≤ f.time_since_last_sec) :
    rule_score f = rule_score_reference f
    ∧ run_heuristic_and_model_analysis f model_score ip_malicious bonus
        = combined_score_reference f model_score ip_malicious bonus
    ∧ 0 ≤ run_heuristic_and_model_analysis f model_score ip_malicious bonus
    ∧ run_heuristic_and_model_analysis f model_score ip_malicious bonus ≤ 1
    ∧ run_heuristic_and_model_analysis f none false bonus = rule_score f := by
  have hr := rule_score_eq_reference f h
  refine ⟨hr, ?_, clamp01_nonneg _, clamp01_le_one _, ?_⟩
  · unfold run_heuristic_and_model_analysis combined_score_reference
    rw [hr]
  · unfold run_heuristic_and_model_analysis
    simp only [if_neg Bool.false_ne_true]
    exact clamp01_of_mem _ (clamp01_nonneg _) (clamp01_le_one _)

/-- Witness for C1 at a concrete feature vector (known-bad UA, empty UA,
frequency 100, no prior hit in the window). -/
theorem C1_witness :
    rule_score ⟨true, false, true, false, 100, -1⟩
      = rule_score_reference ⟨true, false, true, false, 100, -1⟩
    ∧ run_heuristic_and_model_analysis ⟨true, false, true, false, 100, -1⟩ (some 0.5) true 0.3
        = combined_score_reference ⟨true, false, true, false, 100, -1⟩ (some 0.5) true 0.3
    ∧ 0 ≤ run_heuristic_and_model_analysis ⟨true, false, true, false, 100, -1⟩ (some 0.5) true 0.3
    ∧ run_heuristic_and_model_analysis ⟨true, false, true, false, 100, -1⟩ (some 0.5) true 0.3 ≤ 1
    ∧ run_heuristic_and_model_analysis ⟨true, false, true, false, 100, -1⟩ none false 0.3
        = rule_score ⟨true, false, true, false, 100, -1⟩ :=
  C1_rule_and_combined_score_match_reference ⟨true, false, true, false, 100, -1⟩
    (some 0.5) true 0.3 (Or.inl rfl)

/- ---------------------------------------------------------------
   Escalation Engine: decision ladder of handle_escalation
   (escalation_engine.py lines 587-634) together with the dispatch of
   forward_to_webhook (lines 504-535).  A dispatched POST /analyze is
   recorded as the reason string it carries; forward_to_webhook sends
   nothing when the webhook URL is empty and exactly one POST otherwise.
   --------------------------------------------------------------- -/

/-- Reasons of the POST /analyze requests issued by `forward_to_webhook`
for one call: none when `WEBHOOK_URL` is unset, otherwise exactly one. -/
def forward_to_webhook (webhook_url : String) (reason : String) : List String :=
  if webhook_url = "" then [] else [reason]

/-- Outcome of one run of the decision ladder. -/
structure EscalationOutcome where
  is_bot_decision : Option Bool
  action : String
  dispatches : List String

/-- Decision ladder of `handle_escalation`, with the thresholds at their
source defaults (`HEURISTIC_THRESHOLD_HIGH = 0.8`,
`CAPTCHA_SCORE_THRESHOLD_LOW = 0.2`, `CAPTCHA_SCORE_THRESHOLD_HIGH = 0.5`).
`llm` and `ext` are the three-valued classifier replies (`none` =
inconclusive or failed); `fmt` abstracts the `%.3f` float formatting used
inside the high-score reason string. -/
def handle_escalation_decision (final_score : ℚ) (captcha_enabled : Bool)
    (llm : Option Bool) (ext_configured : Bool) (ext : Option Bool)
    (webhook_url : String) (fmt : ℚ → String) : EscalationOutcome :=
  if 0.8 ≤ final_score then
    { is_bot_decision := some true
      action := "webhook_triggered_high_score"
      dispatches := forward_to_webhook webhook_url
        ("High Combined Score (" ++ fmt final_score ++ ")") }
  else if final_score < 0.2 then
    { is_bot_decision := some false
      action := "classified_human_low_score"
      dispatches := [] }
  else if captcha_enabled ∧ 0.2 ≤ final_score ∧ final_score < 0.5 then
    { is_bot_decision := none
      action := "captcha_triggered"
      dispatches := [] }
  else
    match llm with
    | some true =>
      { is_bot_decision := some true
        action := "webhook_triggered_local_llm"
        dispatches := forward_to_webhook webhook_url "Local LLM Classification" }
    | some false =>
      { is_bot_decision := some false
        action := "classified_human_local_llm"
        dispatches := [] }
    | none =>
      if ext_configured then
        match ext with
        | some true =>
          { is_bot_decision := some true
            action := "webhook_triggered_external_api"
            dispatches := forward_to_webhook webhook_url "External API Classification" }
        | some false =>
          { is_bot_decision := some false
            action := "classified_human_external_api"
            dispatches := [] }
        | none =>
          { is_bot_decision := none
            action := "external_api_inconclusive"
            dispatches := [] }
      else
        { is_bot_decision := none
          action := "local_llm_inconclusive"
          dispatches := [] }

/-- Claim C2: whenever the combined score reaches the high threshold 0.8
(and the webhook URL is configured, as it is by default), the decision
ladder returns `is_bot_decision = true` and dispatches exactly one
POST /analyze to the Webhook Sink, whose reason starts with
"High Combined Score". -/
theorem C2_high_score_dispatches_once (final_score : ℚ) (captcha_enabled : Bool)
    (llm : Option Bool) (ext_configured : Bool) (ext : Option Bool)
    (webhook_url : String) (fmt : ℚ → String)
    (hs : 0.8 ≤ final_score) (hw : webhook_url ≠ "") :
    (handle_escalation_decision final_score captcha_enabled llm ext_configured ext
        webhook_url fmt).is_bot_decision = some true
    ∧ (handle_escalation_decision final_score captcha_enabled llm ext_configured ext
        webhook_url fmt).dispatches.length = 1
    ∧ ∀ r ∈ (handle_escalation_decision final_score captcha_enabled llm ext_configured ext
        webhook_url fmt).dispatches, str_starts "High Combined Score" r = true := by
  have hd : (handle_escalation_decision final_score captcha_enabled llm ext_configured ext
      webhook_url fmt).dispatches = ["High Combined Score (" ++ fmt final_score ++ ")"] := by
    unfold handle_escalation_decision forward_to_webhook
    rw [if_pos hs, if_neg hw]
  have hb : (handle_escalation_decision final_score captcha_enabled llm ext_configured ext
      webhook_url fmt).is_bot_decision = some true := by
    unfold handle_escalation_decision
    rw [if_pos hs]
  refine ⟨hb, by rw [hd]; rfl, ?_⟩
  rw [hd]
  intro r hr
  rw [List.mem_singleton] at hr
  subst hr
  have hdata : ("High Combined Score (" ++ fmt final_score ++ ")").data
      = "High Combined Score".data ++ (" (".data ++ (fmt final_score).data ++ ")".data) := by
    simp [String.data_append]
  unfold str_starts
  rw [hdata]
  exact list_pref_of_append _ _

/-- Witness for C2 at score 0.95 and the default webhook URL. -/
theorem C2_witness :
    (handle_escalation_decision 0.95 false none false none
        "http://localhost:8000/analyze" (fun _ => "0.950")).is_bot_decision = some true
    ∧ (handle_escalation_decision 0.95 false none false none
        "http://localhost:8000/analyze" (fun _ => "0.950")).dispatches.length = 1
    ∧ ∀ r ∈ (handle_escalation_decision 0.95 false none false none
        "http://localhost:8000/analyze" (fun _ => "0.950")).dispatches,
        str_starts "High Combined Score" r = true :=
  C2_high_score_dispatches_once 0.95 false none false none
    "http://localhost:8000/analyze" (fun _ => "0.950") (by norm_num) (by decide)

/- ---------------------------------------------------------------
   Webhook Sink (ai_service/ai_webhook.py): add_ip_to_blocklist
   (lines 199-244) and the receive_webhook endpoint (lines 420-467).
   The Redis blocklist database is modelled as an association list from
   key to the stored entry; SETEX is an overwriting insert that always
   succeeds when the store is reachable (BLOCKLISTING_ENABLED).
   --------------------------------------------------------------- -/

/-- The JSON value `add_ip_to_blocklist` stores under the block key. -/
structure BlockEntry where
  reason : String
  user_agent : String
  ttl_seconds : ℕ
deriving DecidableEq

/-- The Redis blocklist database of the sink. -/
abbrev BlockStore := List (String × BlockEntry)

/-- Webhook event body (the fields `receive_webhook` reads). -/
structure WebhookEvent where
  event_type : String
  reason : String
  details_ip : Option String
  details_user_agent : Option String

/-- Default of `BLOCKLIST_TTL_SECONDS`. -/
def BLOCKLIST_TTL_SECONDS : ℕ := 86400

/-- Block key written by the sink:
`BLOCKLIST_KEY_PREFIX + "ip:" + ip = "blocklist:ip:" + ip`. -/
def sink_block_key (ip : String) : String := "blocklist:" ++ "ip:" ++ ip

/-- Model of `add_ip_to_blocklist`: refuses when blocklisting is disabled or the IP
is empty or "unknown"; otherwise SETEX-writes the entry (reason, UA with
default "N/A", TTL) under the block key and reports success. -/
def add_ip_to_blocklist (enabled : Bool) (store : BlockStore)
    (ip reason : String) (ua : Option String) : Bool × BlockStore :=
  if ¬ enabled ∨ ip = "" ∨ ip = "unknown" then
    (false, store)
  else
    let key := sink_block_key ip
    let entry : BlockEntry := ⟨reason, ua.getD "N/A", BLOCKLIST_TTL_SECONDS⟩
    (true, (key, entry) :: store.filter (fun kv => kv.1 ≠ key))

/-- The auto-block reason list of `receive_webhook` (line 442). -/
def auto_block_reasons : List String :=
  ["High Combined Score", "Local LLM Classification", "External API Classification",
   "High Heuristic Score", "Honeypot_Hit", "IP Reputation Malicious"]

/-- Result of one POST /analyze as handled by `receive_webhook`. -/
structure SinkResult where
  status_code : ℕ
  action_taken : String
  ip_processed : String
  store : BlockStore
  community_reports : List String
  block_written : Bool

/-- Model of `receive_webhook` (ai_webhook.py lines 420-467): reject unknown IPs
early; otherwise block iff some auto-block reason occurs as a substring of
the reason (`any(term in reason for term in auto_block_reasons)`), then
optionally report to the community feed and compose the action string.
`community_ok` abstracts the outcome of `report_ip_to_community` and
`alert_suffix` the alert post-processing, which never touches the store. -/
def receive_webhook (blocklisting_enabled community_enabled community_ok : Bool)
    (alert_method : String) (store : BlockStore) (ev : WebhookEvent) : SinkResult :=
  let flagged_ip := ev.details_ip.getD "unknown"
  let reason := if ev.reason = "" then "Unknown Reason" else ev.reason
  if flagged_ip = "unknown" then
    { status_code := 200, action_taken := "blocklist_skipped_unknown_ip"
      ip_processed := flagged_ip, store := store
      community_reports := [], block_written := false }
  else
    let should_block := auto_block_reasons.any (fun term => str_has_sub term reason)
    let write :=
      if should_block then
        add_ip_to_blocklist blocklisting_enabled store flagged_ip reason ev.details_user_agent
      else (false, store)
    let action1 :=
      if should_block then
        (if write.1 then "ip_blocklisted_ttl" else "blocklist_failed")
      else "blocklist_skipped_criteria_not_met"
    let reports := if should_block ∧ write.1 ∧ community_enabled then [flagged_ip] else []
    let action2 :=
      if should_block ∧ write.1 ∧ community_enabled then
        action1 ++ "_community_report_" ++ (if community_ok then "success" else "failed")
      else action1
    let action3 := if alert_method ≠ "none" then action2 ++ "_alert_checked" else action2
    { status_code := 200, action_taken := action3, ip_processed := flagged_ip
      store := write.2, community_reports := reports, block_written := write.1 }

/-- Claim C7: a POST /analyze whose `details.ip` is missing or equal to
"unknown" yields HTTP 200 with action `blocklist_skipped_unknown_ip`,
leaves the blocklist store unchanged, writes no blocklist entry and sends
no community report. -/
theorem C7_unknown_ip_skipped (blocklisting_enabled community_enabled community_ok : Bool)
    (alert_method : String) (store : BlockStore) (ev : WebhookEvent)
    (h : ev.details_ip = none ∨ ev.details_ip = some "unknown") :
    receive_webhook blocklisting_enabled community_enabled community_ok
        alert_method store ev
      = { status_code := 200, action_taken := "blocklist_skipped_unknown_ip"
          ip_processed := "unknown", store := store
          community_reports := [], block_written := false } := by
  unfold receive_webhook
  have hip : ev.details_ip.getD "unknown" = "unknown" := by
    rcases h with h | h <;> rw [h] <;> rfl
  rw [hip]
  rfl

/-- Witness for C7: a concrete event with no `details.ip` against a
non-empty store. -/
theorem C7_witness :
    receive_webhook true true true "slack"
        [("blocklist:ip:9.9.9.9", ⟨"old", "N/A", 86400⟩)]
        ⟨"suspicious_activity_detected", "High Combined Score (0.900)", none, some "curl"⟩
      = { status_code := 200, action_taken := "blocklist_skipped_unknown_ip"
          ip_processed := "unknown"
          store := [("blocklist:ip:9.9.9.9", ⟨"old", "N/A", 86400⟩)]
          community_reports := [], block_written := false } :=
  C7_unknown_ip_skipped true true true "slack"
    [("blocklist:ip:9.9.9.9", ⟨"old", "N/A", 86400⟩)]
    ⟨"suspicious_activity_detected", "High Combined Score (0.900)", none, some "curl"⟩
    (Or.inl rfl)

/-- Claim C6, counterexample: `receive_webhook` decides auto-blocking by
substring containment (`any(term in reason ...)`), not by prefix matching.
The reason "re-check: High Combined Score (0.900)" contains an auto-block
term but starts with none of them, yet the sink writes a blocklist entry. -/
theorem C6_counterexample :
    (receive_webhook true false false "none" []
        ⟨"suspicious_activity_detected", "re-check: High Combined Score (0.900)",
         some "1.2.3.4", some "curl/8.0"⟩).block_written = true
    ∧ auto_block_reasons.all
        (fun t => ! str_starts t "re-check: High Combined Score (0.900)") = true := by
  constructor
  · rfl
  · decide

/-- Claim C6 as amended: for every POST /analyze event carrying a known IP
(and with the blocklist store reachable), the sink writes a blocklist
entry if and only if one of the six auto-block reason strings occurs as a
substring of the reason of the event; the written entry carries the reason, the
user agent (defaulted to "N/A") and the TTL `B = 86400`. -/
theorem C6_substring_autoblock (community_enabled community_ok : Bool)
    (alert_method : String) (store : BlockStore) (ev : WebhookEvent) (ip : String)
    (hip : ev.details_ip = some ip) (hunk : ip ≠ "unknown") (hne : ip ≠ "") :
    ((receive_webhook true community_enabled community_ok alert_method store ev).block_written
        = true
      ↔ ∃ t ∈ auto_block_reasons, ∃ p q,
          (if ev.reason = "" then "Unknown Reason" else ev.reason).data = p ++ t.data ++ q)
    ∧ ((receive_webhook true community_enabled community_ok alert_method store ev).block_written
          = true →
        (sink_block_key ip,
          (⟨if ev.reason = "" then "Unknown Reason" else ev.reason,
            ev.details_user_agent.getD "N/A", BLOCKLIST_TTL_SECONDS⟩ : BlockEntry))
          ∈ (receive_webhook true community_enabled community_ok alert_method store ev).store)
    := by
  by_cases hsb : (auto_block_reasons.any
      (fun term => str_has_sub term
        (if ev.reason = "" then "Unknown Reason" else ev.reason))) = true
  · constructor
    · simp only [receive_webhook, add_ip_to_blocklist, hip, Option.getD_some,
        if_neg hunk, hsb, if_true, hne, hunk, not_true, false_or, or_self,
        if_false, true_iff]
      rw [List.any_eq_true] at hsb
      obtain ⟨t, ht, hsub⟩ := hsb
      exact ⟨t, ht, (list_sub_of_iff _ _).mp hsub⟩
    · intro _
      simp only [receive_webhook, add_ip_to_blocklist, hip, Option.getD_some,
        if_neg hunk, hsb, if_true, hne, hunk, not_true, false_or, or_self,
        if_false]
      exact List.mem_cons_self _ _
  · have hsb' : (auto_block_reasons.any
        (fun term => str_has_sub term
          (if ev.reason = "" then "Unknown Reason" else ev.reason))) = false :=
      Bool.eq_false_iff.mpr hsb
    constructor
    · simp only [receive_webhook, add_ip_to_blocklist, hip, Option.getD_some,
        if_neg hunk, hsb', Bool.false_eq_true, if_false, false_iff, not_exists]
      intro t ht
      rw [List.any_eq_true] at hsb
      push_neg at hsb
      rcases ht with ⟨hmem, p, q, hpq⟩
      exact absurd ((list_sub_of_iff _ _).mpr ⟨p, q, hpq⟩)
        (by simpa using hsb t hmem)
    · intro hfalse
      exfalso
      simp only [receive_webhook, add_ip_to_blocklist, hip, Option.getD_some,
        if_neg hunk, hsb', Bool.false_eq_true, if_false] at hfalse

/-- Witness for C6 at a concrete blockable event: the engine-style reason
"High Combined Score (0.950)" contains the term "High Combined Score", so
the entry is written with reason, UA and TTL 86400. -/
theorem C6_witness :
    (receive_webhook true false false "none" []
        ⟨"suspicious_activity_detected", "High Combined Score (0.950)",
         some "5.6.7.8", none⟩).block_written = true
    ∧ (sink_block_key "5.6.7.8",
        (⟨"High Combined Score (0.950)", "N/A", BLOCKLIST_TTL_SECONDS⟩ : BlockEntry))
        ∈ (receive_webhook true false false "none" []
            ⟨"suspicious_activity_detected", "High Combined Score (0.950)",
             some "5.6.7.8", none⟩).store := by
  have h := C6_substring_autoblock false false "none" []
    ⟨"suspicious_activity_detected", "High Combined Score (0.950)", some "5.6.7.8", none⟩
    "5.6.7.8" rfl (by decide) (by decide)
  have hw : (receive_webhook true false false "none" []
      ⟨"suspicious_activity_detected", "High Combined Score (0.950)",
       some "5.6.7.8", none⟩).block_written = true := by
    apply h.1.mpr
    refine ⟨"High Combined Score", by decide, [], " (0.950)".data, by decide⟩
  exact ⟨hw, h.2 hw⟩

/- ---------------------------------------------------------------
   Alert Dispatcher (ai_service/ai_webhook.py, send_alert lines 392-416):
   the severity of an event is resolved by truncating the reason at the
   first "(" character, stripping whitespace, and performing an exact
   dictionary lookup in the severity map; dispatch happens unless the
   event severity is below the configured minimum severity.
   --------------------------------------------------------------- -/

/-- Model of Python `str.strip()` (whitespace removal at both ends). -/
def py_strip (s : String) : String :=
  String.mk (((s.data.dropWhile Char.isWhitespace).reverse.dropWhile Char.isWhitespace).reverse)

/-- Model of `reason.split("(")[0].strip()` (send_alert line 396). -/
def reason_key (r : String) : String :=
  py_strip (String.mk (r.data.takeWhile (fun c => c ≠ '(')))

/-- The severity map literal of `send_alert` (line 395). -/
def severity_map : List (String × ℕ) :=
  [("High Heuristic", 1), ("Local LLM", 2), ("External API", 3),
   ("High Combined", 1), ("Honeypot_Hit", 2), ("IP Reputation", 1)]

/-- Model of `severity_map.get(key, default)`. -/
def severity_lookup (k : String) (dflt : ℕ) : ℕ :=
  ((severity_map.find? (fun p => decide (p.1 = k))).map Prod.snd).getD dflt

/-- Whether `send_alert` reaches the dispatch step: it returns early iff
`event_severity < min_severity` (lines 396-403), where both severities
come from exact lookups of truncated keys (default 0 for the event,
1 for the configured minimum). -/
def send_alert_dispatches (min_reason_cfg reason : String) : Bool :=
  let event_severity := severity_lookup (reason_key reason) 0
  let min_severity := severity_lookup (reason_key min_reason_cfg) 1
  decide (min_severity ≤ event_severity)

/-- Severity resolution as the claim states it: the level of the map entry
whose key is a prefix of the reason, 0 when none is. -/
def severity_by_reason_pref (reason : String) : ℕ :=
  ((severity_map.find? (fun p => str_starts p.1 reason)).map Prod.snd).getD 0

/-- Claim C8: the source resolves severity by an exact dictionary lookup of
the reason truncated at the first "(", so the reasons actually produced by
the escalation engine ("Local LLM Classification",
"High Combined Score (0.950)", "External API Classification") all resolve
to severity 0 and are never dispatched, while prefix matching as the claim
requires assigns them severities 2, 1 and 3 — at the default minimum
severity configuration "Local LLM" (level 2) the claim mandates dispatch
for "Local LLM Classification" and the code skips it. -/
theorem C8_truncated_lookup_never_dispatches :
    send_alert_dispatches "Local LLM" "Local LLM Classification" = false
    ∧ severity_lookup (reason_key "Local LLM Classification") 0 = 0
    ∧ severity_by_reason_pref "Local LLM Classification" = 2
    ∧ severity_lookup (reason_key "Local LLM") 1 = 2
    ∧ send_alert_dispatches "Local LLM" "High Combined Score (0.950)" = false
    ∧ severity_by_reason_pref "High Combined Score (0.950)" = 1
    ∧ send_alert_dispatches "Local LLM" "External API Classification" = false
    ∧ severity_by_reason_pref "External API Classification" = 3 := by
  decide

/- ---------------------------------------------------------------
   Tarpit Engine (tarpit/tarpit_api.py): the hop-limit branch of
   tarpit_handler (lines 191-215) and trigger_ip_block (lines 142-172).
   The response is modelled by its status code, the optionally streamed
   body, whether the escalation POST is issued, and the list of
   (key, value) pairs written to the Redis blocklist database.
   --------------------------------------------------------------- -/

/-- Blocklist write performed by `trigger_ip_block` (line 153):
the key is the literal `f"blocklist:{ip}"` and the stored value is the
reason string. -/
def trigger_ip_block (ip reason : String) : String × String :=
  ("blocklist:" ++ ip, reason)

/-- Outcome of one tarpit request. -/
structure TarpitResult where
  status_code : ℕ
  streamed_body : Option String
  escalated : Bool
  block_writes : List (String × String)

/-- Model of `tarpit_handler` (tarpit_api.py lines 176-272): under the hop limit the
counter for the client IP is INCRed; when the post-increment value exceeds
`TAR_PIT_MAX_HOPS` the handler blocks the IP with reason
`"Tarpit hop limit exceeded (<n> hits in <w>s)"` and returns 403 at once,
without logging-escalating or streaming; otherwise it escalates and
streams the generated page.  `prior_hops` is the stored counter value
before the request, `page` the generated fake content. -/
def tarpit_handler (hop_limit_enabled : Bool) (max_hops window prior_hops : ℕ)
    (client_ip : String) (page : String) : TarpitResult :=
  if hop_limit_enabled ∧ client_ip ≠ "unknown" then
    let current_hop_count := prior_hops + 1
    if max_hops < current_hop_count then
      { status_code := 403
        streamed_body := none
        escalated := false
        block_writes := [trigger_ip_block client_ip
          ("Tarpit hop limit exceeded (" ++ toString current_hop_count
            ++ " hits in " ++ toString window ++ "s)")] }
    else
      { status_code := 200, streamed_body := some page
        escalated := true, block_writes := [] }
  else
    { status_code := 200, streamed_body := some page
      escalated := true, block_writes := [] }

/-- Claim C3: at the failing input (MAX_HOPS = 2, window 60 s, third
request from 10.0.0.1, post-increment hop count 3 > 2) the handler does
respond 403 immediately, streams nothing, does not escalate, and the
single blocklist write carries a reason containing "hop limit" — but the
write goes to key "blocklist:10.0.0.1", not to "blocklist:ip:10.0.0.1" as
the claim (and the sink convention the source comments assert) requires. -/
theorem C3_hop_limit_key_mismatch :
    (tarpit_handler true 2 60 2 "10.0.0.1" "<html>page</html>").status_code = 403
    ∧ (tarpit_handler true 2 60 2 "10.0.0.1" "<html>page</html>").streamed_body = none
    ∧ (tarpit_handler true 2 60 2 "10.0.0.1" "<html>page</html>").escalated = false
    ∧ (tarpit_handler true 2 60 2 "10.0.0.1" "<html>page</html>").block_writes
        = [("blocklist:10.0.0.1", "Tarpit hop limit exceeded (3 hits in 60s)")]
    ∧ str_has_sub "hop limit" "Tarpit hop limit exceeded (3 hits in 60s)" = true
    ∧ ((tarpit_handler true 2 60 2 "10.0.0.1" "<html>page</html>").block_writes.all
        (fun kv => ! decide (kv.1 = "blocklist:ip:10.0.0.1"))) = true := by
  refine ⟨rfl, rfl, rfl, rfl, by decide, by decide⟩

/- ---------------------------------------------------------------
   Frequency Tracker (escalation/escalation_engine.py,
   get_realtime_frequency_features lines 291-332).  The Redis sorted set
   freq:<ip> is modelled as the list of stored timestamp scores; the
   pipeline ZREMRANGEBYSCORE -inf (ws / ZADD now / ZCOUNT ws now /
   ZRANGE -2 -1 is executed over it.  Python round(x, 3) is modelled as
   exact round-half-to-even on rationals.
   --------------------------------------------------------------- -/

/-- The `FREQUENCY_WINDOW_SECONDS` constant (line 100). -/
def FREQUENCY_WINDOW_SECONDS : ℚ := 300

/-- Round-half-to-even to an integer, the rounding mode of Python round. -/
def py_round_half_even (q : ℚ) : ℤ :=
  let n := ⌊q⌋
  if q - n < 1/2 then n
  else if 1/2 < q - n then n + 1
  else if Even n then n else n + 1

/-- Model of Python `round(x, 3)`. -/
def py_round3 (q : ℚ) : ℚ := (py_round_half_even (q * 1000) : ℚ) / 1000

/-- The two frequency features returned to the heuristic. -/
structure FreqFeatures where
  count : ℕ
  time_since : ℚ

/-- Model of `get_realtime_frequency_features`: one atomic pipeline over the stored
timestamp list `T` of the IP at clock value `now` — prune scores strictly
below `now - W` (the `(ws` bound is exclusive), add `now` (a set insert),
count scores in the closed range `[ws, now]`, return that count minus one
(the previous requests), and read the last two entries in score order: the
gap to the second-greatest is `round(now - last_ts, 3)`, or `-1` when at
most one entry remains. -/
def zremrangebyscore_below (T : List ℚ) (ws : ℚ) : List ℚ :=
  T.filter (fun t => decide (ws ≤ t))

/-- ZADD with one member: a set insert (the member encodes the score). -/
def zadd_entry (T : List ℚ) (x : ℚ) : List ℚ :=
  if x ∈ T then T else T ++ [x]

/-- ZCOUNT with inclusive bounds. -/
def zcount_range (T : List ℚ) (lo hi : ℚ) : ℕ :=
  (T.filter (fun t => decide (lo ≤ t) && decide (t ≤ hi))).length

/-- ZRANGE key -2 -1: the last two entries in ascending score order. -/
def zrange_last_two (T : List ℚ) : List ℚ :=
  let s := T.insertionSort (· ≤ ·)
  s.drop (s.length - 2)

def get_realtime_frequency_features (T : List ℚ) (now : ℚ) : FreqFeatures :=
  let window_start := now - FREQUENCY_WINDOW_SECONDS
  let after_add := zadd_entry (zremrangebyscore_below T window_start) now
  let current_count := zcount_range after_add window_start now
  let cnt := if 0 < current_count then current_count - 1 else 0
  let recent := zrange_last_two after_add
  let ts : ℚ := if 1 < recent.length then py_round3 (now - recent.headD 0) else -1
  ⟨cnt, ts⟩

/-- The count as the claim words it: all timestamps of the post-insert set
in the half-open window `(now - W, now]` (this includes the just-inserted
`now` itself). -/
def claim_window_count (T : List ℚ) (now : ℚ) : ℕ :=
  let window_start := now - FREQUENCY_WINDOW_SECONDS
  let after_add := zadd_entry (zremrangebyscore_below T window_start) now
  (after_add.filter (fun t => decide (window_start < t) && decide (t ≤ now))).length

/-- Claim C5, counterexample: on the very first request of an IP (empty
stored set, now = 1000) the code returns count 0 (it subtracts the
just-inserted current timestamp), while the count of the claim over the stored
set - which contains `now` - is 1. -/
theorem C5_counterexample :
    (get_realtime_frequency_features [] 1000).count = 0
    ∧ claim_window_count [] 1000 = 1
    ∧ (get_realtime_frequency_features [] 1000).count ≠ claim_window_count [] 1000 := by
  have h1 : (get_realtime_frequency_features [] 1000).count = 0 := by
    norm_num [get_realtime_frequency_features, FREQUENCY_WINDOW_SECONDS,
      zremrangebyscore_below, zadd_entry, zcount_range]
  have h2 : claim_window_count [] 1000 = 1 := by
    norm_num [claim_window_count, FREQUENCY_WINDOW_SECONDS,
      zremrangebyscore_below, zadd_entry]
  refine ⟨h1, h2, ?_⟩
  rw [h1, h2]
  decide

/-- The last two entries of a list ending in `x` whose front part has last
element `m`. -/
theorem drop_two_of_getLast_eq {α : Type} (S : List α) (x m : α)
    (hm : S.getLast? = some m) :
    (S ++ [x]).drop ((S ++ [x]).length - 2) = [m, x] := by
  induction S with
  | nil => simp at hm
  | cons a ss ih =>
    cases ss with
    | nil =>
      simp only [List.getLast?_singleton, Option.some.injEq] at hm
      subst hm
      rfl
    | cons b ts =>
      rw [List.getLast?_cons_cons] at hm
      have hlen : ((a :: b :: ts) ++ [x]).length - 2
          = (((b :: ts) ++ [x]).length - 2) + 1 := by
        simp only [List.length_append, List.length_cons, List.length_singleton]
        omega
      rw [hlen]
      have : (a :: b :: ts) ++ [x] = a :: ((b :: ts) ++ [x]) := rfl
      rw [this, List.drop_succ_cons]
      exact ih hm

/-- A sorted nonempty list has a last element that is a maximum. -/
theorem sorted_getLast_is_max (S : List ℚ) (hS : List.Sorted (· ≤ ·) S)
    (h : S ≠ []) :
    ∃ g, S.getLast? = some g ∧ g ∈ S ∧ ∀ a ∈ S, a ≤ g := by
  induction S with
  | nil => cases h rfl
  | cons a ss ih =>
    cases ss with
    | nil =>
      exact ⟨a, rfl, List.mem_singleton_self a, by
        intro b hb
        rw [List.mem_singleton] at hb
        exact hb.le⟩
    | cons b ts =>
      have hS' : List.Sorted (· ≤ ·) (b :: ts) := hS.of_cons
      obtain ⟨g, hg1, hg2, hg3⟩ := ih hS' (List.cons_ne_nil b ts)
      refine ⟨g, ?_, List.mem_cons_of_mem a hg2, ?_⟩
      · rw [List.getLast?_cons_cons]
        exact hg1
      · intro c hc
        rcases List.mem_cons.mp hc with rfl | hc
        · exact le_trans (List.rel_of_sorted_cons hS g hg2) (le_refl g)
        · exact hg3 c hc

theorem zadd_entry_of_lt (T : List ℚ) (now : ℚ) (h : ∀ t ∈ T, t < now) :
    zadd_entry T now = T ++ [now] := by
  unfold zadd_entry
  rw [if_neg]
  intro hmem
  exact absurd (h now hmem) (lt_irrefl now)

theorem zcount_range_closed (T1 : List ℚ) (now : ℚ)
    (hmem : ∀ t ∈ T1, now - FREQUENCY_WINDOW_SECONDS ≤ t) (hlt : ∀ t ∈ T1, t < now) :
    zcount_range (T1 ++ [now]) (now - FREQUENCY_WINDOW_SECONDS) now = T1.length + 1 := by
  unfold zcount_range
  rw [List.filter_append]
  have h1 : T1.filter
      (fun t => decide (now - FREQUENCY_WINDOW_SECONDS ≤ t) && decide (t ≤ now)) = T1 := by
    apply List.filter_eq_self.mpr
    intro a ha
    simp [hmem a ha, (hlt a ha).le]
  have hws : now - FREQUENCY_WINDOW_SECONDS ≤ now := by
    unfold FREQUENCY_WINDOW_SECONDS
    linarith
  have h2 : [now].filter
      (fun t => decide (now - FREQUENCY_WINDOW_SECONDS ≤ t) && decide (t ≤ now)) = [now] := by
    simp [List.filter, hws]
  rw [h1, h2, List.length_append, List.length_singleton]

theorem insertionSort_append_upper (T1 : List ℚ) (now : ℚ) (hlt : ∀ t ∈ T1, t < now) :
    (T1 ++ [now]).insertionSort (· ≤ ·)
      = T1.insertionSort (· ≤ ·) ++ [now] := by
  apply List.eq_of_perm_of_sorted (r := (· ≤ · : ℚ → ℚ → Prop))
  · exact (List.perm_insertionSort _ _).trans
      ((List.perm_insertionSort (· ≤ ·) T1).append_right [now]).symm
  · exact List.sorted_insertionSort _ _
  · refine List.pairwise_append.mpr
      ⟨List.sorted_insertionSort _ _, List.sorted_singleton now, ?_⟩
    intro a ha b hb
    rw [List.mem_singleton] at hb
    subst hb
    exact (hlt a ((List.perm_insertionSort (· ≤ ·) T1).mem_iff.mp ha)).le

/-- Claim C5 as amended: after the atomic prune-and-insert, the returned
count equals the number of previously stored timestamps in the closed
window `[now - W, now]` (the code subtracts the just-inserted `now` and the
prune keeps the boundary `now - W` itself), and the returned `time_since`
is `round(now - m, 3)` where `m` is the greatest previously stored
timestamp in that window, or `-1` when the window holds no prior
timestamp.  The hypothesis states clock monotonicity: every stored
timestamp is strictly older than `now`. -/
theorem C5_count_and_gap_amended (T : List ℚ) (now : ℚ)
    (hlt : ∀ t ∈ T, t < now) :
    (get_realtime_frequency_features T now).count
        = (T.filter (fun t => decide (now - FREQUENCY_WINDOW_SECONDS ≤ t)
            && decide (t ≤ now))).length
    ∧ (T.filter (fun t => decide (now - FREQUENCY_WINDOW_SECONDS ≤ t)
          && decide (t ≤ now)) = [] →
        (get_realtime_frequency_features T now).time_since = -1)
    ∧ ∀ m ∈ T.filter (fun t => decide (now - FREQUENCY_WINDOW_SECONDS ≤ t)
          && decide (t ≤ now)),
        (∀ a ∈ T.filter (fun t => decide (now - FREQUENCY_WINDOW_SECONDS ≤ t)
            && decide (t ≤ now)), a ≤ m) →
        (get_realtime_frequency_features T now).time_since = py_round3 (now - m) := by
  have hfc : T.filter (fun t => decide (now - FREQUENCY_WINDOW_SECONDS ≤ t)
      && decide (t ≤ now))
      = zremrangebyscore_below T (now - FREQUENCY_WINDOW_SECONDS) := by
    unfold zremrangebyscore_below
    apply List.filter_congr
    intro t ht
    simp [(hlt t ht).le]
  have hT1lt : ∀ t ∈ zremrangebyscore_below T (now - FREQUENCY_WINDOW_SECONDS), t < now := by
    intro t ht
    exact hlt t (List.mem_of_mem_filter ht)
  have hT1ws : ∀ t ∈ zremrangebyscore_below T (now - FREQUENCY_WINDOW_SECONDS),
      now - FREQUENCY_WINDOW_SECONDS ≤ t := by
    intro t ht
    have := List.of_mem_filter ht
    simpa using this
  have hadd : zadd_entry (zremrangebyscore_below T (now - FREQUENCY_WINDOW_SECONDS)) now
      = zremrangebyscore_below T (now - FREQUENCY_WINDOW_SECONDS) ++ [now] :=
    zadd_entry_of_lt _ now hT1lt
  have hcnt : zcount_range
      (zremrangebyscore_below T (now - FREQUENCY_WINDOW_SECONDS) ++ [now])
      (now - FREQUENCY_WINDOW_SECONDS) now
      = (zremrangebyscore_below T (now - FREQUENCY_WINDOW_SECONDS)).length + 1 :=
    zcount_range_closed _ now hT1ws hT1lt
  have hsort : (zremrangebyscore_below T (now - FREQUENCY_WINDOW_SECONDS) ++ [now]).insertionSort
      (· ≤ ·)
      = (zremrangebyscore_below T (now - FREQUENCY_WINDOW_SECONDS)).insertionSort (· ≤ ·)
        ++ [now] :=
    insertionSort_append_upper _ now hT1lt
  refine ⟨?_, ?_, ?_⟩
  · simp only [get_realtime_frequency_features, hadd, hcnt, hfc]
    simp
  · intro hnil
    rw [hfc] at hnil
    have hS : (zremrangebyscore_below T (now - FREQUENCY_WINDOW_SECONDS)).insertionSort
        (· ≤ ·) = [] := by
      rw [hnil]
      rfl
    simp only [get_realtime_frequency_features, hadd, zrange_last_two, hsort, hS]
    norm_num
  · intro m hm hmax
    rw [hfc] at hm hmax
    have hSne : (zremrangebyscore_below T (now - FREQUENCY_WINDOW_SECONDS)).insertionSort
        (· ≤ ·) ≠ [] := by
      intro hS
      have hTe := (List.perm_insertionSort (· ≤ ·)
        (zremrangebyscore_below T (now - FREQUENCY_WINDOW_SECONDS)))
      rw [hS] at hTe
      rw [hTe.symm.eq_nil] at hm
      simp at hm
    obtain ⟨g, hg, hgm, hgmax⟩ := sorted_getLast_is_max _
      (List.sorted_insertionSort _ _) hSne
    have hperm := List.perm_insertionSort (· ≤ ·)
      (zremrangebyscore_below T (now - FREQUENCY_WINDOW_SECONDS))
    have hgm' : g ∈ zremrangebyscore_below T (now - FREQUENCY_WINDOW_SECONDS) :=
      hperm.mem_iff.mp hgm
    have hmg : m = g := by
      have h1 : g ≤ m := hmax g hgm'
      have h2 : m ≤ g := hgmax m (hperm.mem_iff.mpr hm)
      exact le_antisymm h2 h1
    have hdrop := drop_two_of_getLast_eq
      ((zremrangebyscore_below T (now - FREQUENCY_WINDOW_SECONDS)).insertionSort (· ≤ ·))
      now g hg
    simp only [get_realtime_frequency_features, hadd, zrange_last_two, hsort, hdrop, hmg]
    norm_num

/-- Witness for C5: two stored timestamps 800 and 999 at now = 1000 inside
the 300 s window give count 2 (the prior requests) and
time_since = round(1000 - 999, 3). -/
theorem C5_witness :
    (get_realtime_frequency_features [800, 999] 1000).count
        = ([(800 : ℚ), 999].filter
            (fun t => decide ((1000 : ℚ) - FREQUENCY_WINDOW_SECONDS ≤ t)
              && decide (t ≤ (1000 : ℚ)))).length
    ∧ (get_realtime_frequency_features [800, 999] 1000).time_since
        = py_round3 (1000 - 999) := by
  have h := C5_count_and_gap_amended [800, 999] 1000 (by
    intro t ht
    fin_cases ht <;> norm_num)
  refine ⟨h.1, ?_⟩
  apply h.2.2 999
  · rw [List.mem_filter]
    norm_num [FREQUENCY_WINDOW_SECONDS]
  · intro a ha
    rw [List.mem_filter] at ha
    rcases ha with ⟨hmem, _⟩
    fin_cases hmem <;> norm_num

/- ---------------------------------------------------------------
   Metrics Registry (metrics.py): the counter store is a mapping from
   string key to integer, starting empty (Counter semantics: missing keys
   read as 0).  increment_metric mutates one key under the lock;
   get_metrics copies the store and adds the uptime and timestamp fields
   (overwriting counters of the same name, as dict assignment does).
   --------------------------------------------------------------- -/

/-- One registry mutation: `increment_metric(key, value)`. -/
structure MetricOp where
  key : String
  delta : ℤ

/-- Effect of `increment_metric` on the store (metrics.py lines 44-48). -/
def increment_metric (store : String → ℤ) (op : MetricOp) : String → ℤ :=
  fun k => if k = op.key then store k + op.delta else store k

/-- The store reached from process start after a sequence of increments. -/
def run_metric_ops (ops : List MetricOp) : String → ℤ :=
  ops.foldl increment_metric (fun _ => 0)

/-- A value of the snapshot dictionary returned by `get_metrics`. -/
inductive MetricValue where
  | int (n : ℤ)
  | num (q : ℚ)
  | str (s : String)
deriving DecidableEq

/-- Model of Python `round(x, 2)`. -/
def py_round2 (q : ℚ) : ℚ := (py_round_half_even (q * 100) : ℚ) / 100

/-- Model of `get_metrics` (metrics.py lines 50-58): a copy of the counters with
`service_uptime_seconds` (uptime rounded to 2 digits) and
`last_updated_utc` added, the added keys shadowing counters of the same
name exactly as the dict assignment does. -/
def get_metrics (store : String → ℤ) (uptime : ℚ) (ts : String) : String → MetricValue :=
  fun k =>
    if k = "last_updated_utc" then .str ts
    else if k = "service_uptime_seconds" then .num (py_round2 uptime)
    else .int (store k)

theorem run_metric_ops_append (pre post : List MetricOp) :
    run_metric_ops (pre ++ post) = post.foldl increment_metric (run_metric_ops pre) := by
  unfold run_metric_ops
  rw [List.foldl_append]

theorem foldl_increment_le (s : String → ℤ) (ops : List MetricOp)
    (h : ∀ op ∈ ops, 0 ≤ op.delta) (k : String) :
    s k ≤ (ops.foldl increment_metric s) k := by
  induction ops generalizing s with
  | nil => exact le_refl _
  | cons op rest ih =>
    rw [List.foldl_cons]
    refine le_trans ?_ (ih (increment_metric s op) (fun o ho => h o (List.mem_cons_of_mem op ho)))
    unfold increment_metric
    by_cases hk : k = op.key
    · rw [if_pos hk]
      have := h op (List.mem_cons_self op rest)
      linarith
    · rw [if_neg hk]

/-- Claim C9: for every sequence of registry operations whose deltas are
non-negative (every call site in the repository passes 1 or a natural
count), every counter is non-negative and non-decreasing along the
sequence, and every snapshot is a copy of the current counters carrying
the `service_uptime_seconds` field. -/
theorem C9_counters_monotone (ops : List MetricOp)
    (h : ∀ op ∈ ops, 0 ≤ op.delta) :
    (∀ k, 0 ≤ run_metric_ops ops k)
    ∧ (∀ pre post k, ops = pre ++ post → run_metric_ops pre k ≤ run_metric_ops ops k)
    ∧ (∀ uptime ts k, k ≠ "service_uptime_seconds" → k ≠ "last_updated_utc" →
        get_metrics (run_metric_ops ops) uptime ts k = .int (run_metric_ops ops k))
    ∧ (∀ uptime ts, get_metrics (run_metric_ops ops) uptime ts "service_uptime_seconds"
        = .num (py_round2 uptime)) := by
  refine ⟨?_, ?_, ?_, ?_⟩
  · intro k
    exact foldl_increment_le (fun _ => 0) ops h k
  · intro pre post k hsplit
    subst hsplit
    rw [run_metric_ops_append]
    exact foldl_increment_le (run_metric_ops pre) post
      (fun o ho => h o (List.mem_append_right pre ho)) k
  · intro uptime ts k hk1 hk2
    unfold get_metrics
    rw [if_neg hk2, if_neg hk1]
  · intro uptime ts
    unfold get_metrics
    rw [if_neg (by decide), if_pos rfl]

/-- Witness for C9 at a concrete operation sequence. -/
theorem C9_witness :
    (∀ k, 0 ≤ run_metric_ops [⟨"webhook_events_received", 1⟩, ⟨"blocklist_ips_added", 1⟩,
        ⟨"webhook_events_received", 1⟩] k)
    ∧ run_metric_ops [⟨"webhook_events_received", 1⟩]
        "webhook_events_received"
      ≤ run_metric_ops [⟨"webhook_events_received", 1⟩, ⟨"blocklist_ips_added", 1⟩,
          ⟨"webhook_events_received", 1⟩] "webhook_events_received"
    ∧ get_metrics (run_metric_ops [⟨"webhook_events_received", 1⟩, ⟨"blocklist_ips_added", 1⟩,
          ⟨"webhook_events_received", 1⟩]) 12 "2026-01-01T00:00:00Z"
        "webhook_events_received"
      = .int (run_metric_ops [⟨"webhook_events_received", 1⟩, ⟨"blocklist_ips_added", 1⟩,
          ⟨"webhook_events_received", 1⟩] "webhook_events_received") := by
  have h := C9_counters_monotone [⟨"webhook_events_received", 1⟩, ⟨"blocklist_ips_added", 1⟩,
    ⟨"webhook_events_received", 1⟩] (by
      intro op hop
      fin_cases hop <;> norm_num)
  refine ⟨h.1, ?_, ?_⟩
  · exact h.2.1 [⟨"webhook_events_received", 1⟩]
      [⟨"blocklist_ips_added", 1⟩, ⟨"webhook_events_received", 1⟩]
      "webhook_events_received" rfl
  · exact h.2.2.1 12 "2026-01-01T00:00:00Z" "webhook_events_received"
      (by decide) (by decide)

/- ---------------------------------------------------------------
   Markov Generator (tarpit/markov_generator.py).  The relational store
   is modelled as a function from the chain state (p1, p2) to the row
   list the query returns — already in the order produced by
   ORDER BY freq DESC, random() LIMIT 20, so the database-side random
   tie-break is part of the oracle, not of the request PRNG.  The
   request PRNG seeded by tarpit_api is modelled as a stream of draws
   consumed one per primitive call (random.choice / random.choices /
   random.randint); each draw selects an index or a point in the
   cumulative weight range.
   --------------------------------------------------------------- -/

/-- A transition row: (next word, frequency). -/
abbrev MarkovRow := String × ℕ

/-- The ordered rows the transition query returns for a state (p1, p2). -/
abbrev MarkovDb := ℕ → ℕ → List MarkovRow

/-- The seeded PRNG, as the stream of draws it will produce. -/
abbrev RngStream := ℕ → ℕ

/-- Model of `random.randint(a, b)` consuming one draw. -/
def py_randint (a b : ℕ) (draw : ℕ) : ℕ := a + draw % (b - a + 1)

/-- Model of the cumulative-weight selection of `random.choices(words,
weights, k=1)`: the draw point `x ∈ [0, total)` picks the first row whose
cumulative frequency exceeds it, so the outcome depends on the row
order. -/
def pick_weighted : List MarkovRow → ℕ → String
  | [], _ => ""
  | [(w, _)], _ => w
  | (w, f) :: r1 :: rest, x =>
    if x < f then w else pick_weighted (r1 :: rest) (x - f)

/-- Model of `get_next_word_from_db` (markov_generator.py lines 142-194): `none`
when the query yields no rows (empty result or store error, consuming no
randomness), otherwise the weighted choice among the returned rows
(uniform via `random.choice` when the total frequency is 0).  The second
component records whether a PRNG draw was consumed. -/
def get_next_word_from_db (db : MarkovDb) (p1 p2 : ℕ) (draw : ℕ) :
    Option String × Bool :=
  match db p1 p2 with
  | [] => (none, false)
  | rows =>
    let total := (rows.map Prod.snd).sum
    if total = 0 then (some ((rows.map Prod.fst).getD (draw % rows.length) ""), true)
    else (some (pick_weighted rows (draw % total)), true)

/-- Model of `get_word_id` (markov_generator.py lines 196-215): the id of the word
in the word table, or the sentinel 1 when there is no connection, the word
is empty, a database error occurs, or the word is absent.  Totality of
this definition models that the Python function never raises. -/
def get_word_id (conn_ok : Bool) (db_error : Bool)
    (word_table : List (String × ℕ)) (word : String) : ℕ :=
  if ¬ conn_ok ∨ word = "" then 1
  else if db_error then 1
  else
    match word_table.find? (fun p => decide (p.1 = word)) with
    | some p => p.2
    | none => 1

/-- Python `" ".join(...)`. -/
def join_space : List String → String
  | [] => ""
  | [w] => w
  | w :: w1 :: ws => w ++ " " ++ join_space (w1 :: ws)

/-- Closing an open paragraph with an added final period
(`content += "<p>" + " ".join(paragraph) + ".</p>\n"`, guarded by the
paragraph being nonempty). -/
def flush_par (content : String) (par : List String) : String :=
  if par.isEmpty then content else content ++ "<p>" ++ join_space par ++ ".</p>\n"

/-- Python `word.endswith(('.', '!', '?'))`. -/
def ends_sentence (w : String) : Bool :=
  match w.data.getLast? with
  | some c => decide (c = '.') || decide (c = '!') || decide (c = '?')
  | none => false

/-- Mutable state of the generation loop in `generate_markov_text_from_db`. -/
structure GenState where
  w1 : ℕ
  w2 : ℕ
  word_count : ℕ
  par : List String
  content : String

/-- One non-`None` iteration of the while loop of
`generate_markov_text_from_db` (lines 229-264): the sentinel empty word
closes the paragraph and resets the chain; otherwise the word is appended,
its id looked up (`wid` abstracts `get_word_id` against the word table),
an unresolvable non-empty word (id 1) closes the paragraph and resets the
chain, and a sentence-ending word with more than five words in the
paragraph flushes it without an added period. -/
def markov_step (wid : String → ℕ) (st : GenState) (w : String) : GenState :=
  if w = "" then
    { w1 := 1, w2 := 1, word_count := st.word_count, par := [],
      content := flush_par st.content st.par }
  else
    let par1 := st.par ++ [w]
    let wc1 := st.word_count + 1
    let nid := wid w
    if nid = 1 then
      { w1 := 1, w2 := 1, word_count := wc1, par := [],
        content := flush_par st.content par1 }
    else
      if ends_sentence w ∧ 5 < par1.length then
        { w1 := 1, w2 := 1, word_count := wc1, par := [],
          content := st.content ++ "<p>" ++ join_space par1 ++ "</p>\n" }
      else
        { w1 := st.w2, w2 := nid, word_count := wc1, par := par1,
          content := st.content }

/-- Claim C10: `get_word_id` returns the sentinel id 1 whenever the word
is empty, the connection is down, a database error occurs, or the word is
not in the table; and the generation loop, on a non-empty word whose id
lookup came back as the sentinel, closes the current paragraph (with the
word appended and a final period) and resets its chain state to (1, 1)
instead of failing. -/
theorem C10_word_id_sentinel :
    (∀ (conn_ok db_error : Bool) (word_table : List (String × ℕ)) (word : String),
      (word = "" ∨ db_error = true ∨ conn_ok = false
        ∨ word_table.find? (fun p => decide (p.1 = word)) = none) →
      get_word_id conn_ok db_error word_table word = 1)
    ∧ (∀ (wid : String → ℕ) (st : GenState) (w : String),
        w ≠ "" → wid w = 1 →
        (markov_step wid st w).w1 = 1 ∧ (markov_step wid st w).w2 = 1
        ∧ (markov_step wid st w).par = []
        ∧ (markov_step wid st w).content = flush_par st.content (st.par ++ [w])) := by
  constructor
  · intro conn_ok db_error word_table word h
    unfold get_word_id
    rcases h with h | h | h | h
    · rw [if_pos (Or.inr h)]
    · by_cases hc : (¬ conn_ok = true ∨ word = "")
      · rw [if_pos hc]
      · rw [if_neg hc, if_pos h]
    · rw [if_pos (Or.inl (by rw [h]; decide))]
    · by_cases hc : (¬ conn_ok = true ∨ word = "")
      · rw [if_pos hc]
      · rw [if_neg hc]
        by_cases hd : db_error = true
        · rw [if_pos hd]
        · rw [if_neg hd, h]
  · intro wid st w hw hid
    unfold markov_step
    rw [if_neg hw]
    simp only [hid, if_pos rfl]
    exact ⟨rfl, rfl, rfl, rfl⟩

/-- Witness for C10: the empty word, a table miss, and a loop step on an
unresolvable word. -/
theorem C10_witness :
    get_word_id true false [("alpha", 2)] "" = 1
    ∧ get_word_id true false [("alpha", 2)] "beta" = 1
    ∧ (markov_step (fun _ => 1) ⟨4, 5, 3, ["some"], "<p>old.</p>\n"⟩ "beta").w1 = 1
    ∧ (markov_step (fun _ => 1) ⟨4, 5, 3, ["some"], "<p>old.</p>\n"⟩ "beta").w2 = 1
    ∧ (markov_step (fun _ => 1) ⟨4, 5, 3, ["some"], "<p>old.</p>\n"⟩ "beta").par = [] := by
  have h1 := C10_word_id_sentinel.1 true false [("alpha", 2)] "" (Or.inl rfl)
  have h2 := C10_word_id_sentinel.1 true false [("alpha", 2)] "beta"
    (Or.inr (Or.inr (Or.inr (by decide))))
  have h3 := C10_word_id_sentinel.2 (fun _ => 1) ⟨4, 5, 3, ["some"], "<p>old.</p>\n"⟩ "beta"
    (by decide) rfl
  exact ⟨h1, h2, h3.1, h3.2.1, h3.2.2.1⟩

/-- The while loop of `generate_markov_text_from_db` (lines 229-264),
threading the PRNG draw index; `fuel` bounds the number of iterations
observed (the Python loop has no such bound and can in principle spin on
sentinel words; every concrete run below terminates well within the
fuel).  A `None` from the transition query breaks the loop. -/
def gen_loop (db : MarkovDb) (wid : String → ℕ) (g : RngStream) (max_words : ℕ) :
    ℕ → GenState → ℕ → GenState × ℕ
  | 0, st, i => (st, i)
  | fuel + 1, st, i =>
    if st.word_count < max_words then
      match get_next_word_from_db db st.w1 st.w2 (g i) with
      | (none, _) => (st, i)
      | (some w, _) => gen_loop db wid g max_words fuel (markov_step wid st w) (i + 1)
    else (st, i)

/-- Model of `generate_markov_text_from_db` (lines 218-273): `max_words` is
`sentences * random.randint(15, 30)`; the loop starts from the sentinel
state (1, 1); the remaining paragraph is closed at the end and an empty
result falls back to the static error paragraph.  Returns the generated
content and the next PRNG draw index. -/
def generate_markov_text_from_db (db : MarkovDb) (wid : String → ℕ) (g : RngStream)
    (sentences : ℕ) (fuel : ℕ) (i0 : ℕ) : String × ℕ :=
  let max_words := sentences * py_randint 15 30 (g i0)
  let r := gen_loop db wid g max_words fuel ⟨1, 1, 0, [], ""⟩ (i0 + 1)
  let content := flush_par r.1.content r.1.par
  (if content = "" then "<p>Content generation unavailable due to errors.</p>" else content,
   r.2)

/-- The population of `random.choices(string.ascii_lowercase + string.digits)`. -/
def name_alphabet : List Char := "abcdefghijklmnopqrstuvwxyz0123456789".data

/-- Model of `generate_random_page_name(length)` (lines 102-105): `length`
characters drawn from the 36-letter alphabet, one PRNG draw each. -/
def generate_random_page_name (g : RngStream) (i : ℕ) (len : ℕ) : String × ℕ :=
  (String.mk ((List.range len).map (fun j => name_alphabet.getD (g (i + j) % 36) 'a')),
   i + len)

/-- The directory segments of one fake link: `random.randint(5, 8)` then a
name, repeated `num_dirs` times. -/
def gen_link_dirs (g : RngStream) : ℕ → ℕ → List String × ℕ
  | 0, i => ([], i)
  | n + 1, i =>
    let dlen := py_randint 5 8 (g i)
    let r1 := generate_random_page_name g (i + 1) dlen
    let r2 := gen_link_dirs g n r1.2
    (r1.1 :: r2.1, r2.2)

/-- Python `"/".join(dirs)`. -/
def join_slash : List String → String
  | [] => ""
  | [d] => d
  | d :: d1 :: ds => d ++ "/" ++ join_slash (d1 :: ds)

/-- Python `str.replace("//", "/")`: non-overlapping left-to-right. -/
def replace_double_slash : List Char → List Char
  | [] => []
  | [c] => [c]
  | c1 :: c2 :: rest =>
    if c1 = '/' ∧ c2 = '/' then '/' :: replace_double_slash rest
    else c1 :: replace_double_slash (c2 :: rest)

/-- One iteration of the loop of `generate_fake_links` (lines 115-138):
link type by `random.choice`, 0-3 directory segments, a 10-character file
base name, a data extension by `random.choice` when the type is "data",
assembled under the `/tarpit` base and with double slashes collapsed. -/
def generate_one_link (g : RngStream) (i : ℕ) : String × ℕ :=
  let link_type := ["page", "js", "data", "css"].getD (g i % 4) "page"
  let num_dirs := g (i + 1) % 4
  let rdirs := gen_link_dirs g num_dirs (i + 2)
  let rbase := generate_random_page_name g rdirs.2 10
  let ext_pre : String × String × ℕ :=
    if link_type = "page" then (".html", "/page/", rbase.2)
    else if link_type = "js" then (".js", "/js/", rbase.2)
    else if link_type = "data" then
      ([".json", ".xml", ".csv"].getD (g rbase.2 % 3) ".json", "/data/", rbase.2 + 1)
    else (".css", "/styles/", rbase.2)
  let full := "/tarpit" ++ ext_pre.2.1 ++ join_slash rdirs.1 ++ "/" ++ rbase.1 ++ ext_pre.1
  (String.mk (replace_double_slash full.data), ext_pre.2.2)

/-- Model of `generate_fake_links` (lines 107-140) with `count` iterations. -/
def generate_fake_links (g : RngStream) : ℕ → ℕ → List String × ℕ
  | 0, i => ([], i)
  | n + 1, i =>
    let r1 := generate_one_link g i
    let r2 := generate_fake_links g n r1.2
    (r1.1 :: r2.1, r2.2)

/-- Splitting a character list at a separator (model of Python `split`). -/
def split_on_char (c : Char) : List Char → List (List Char)
  | [] => [[]]
  | x :: xs =>
    match split_on_char c xs with
    | [] => [[]]
    | seg :: segs => if x = c then [] :: seg :: segs else (x :: seg) :: segs

/-- Python `str.capitalize()`: first character upper, the rest lower. -/
def py_capitalize : List Char → List Char
  | [] => []
  | c :: cs => c.toUpper :: cs.map Char.toLower

/-- Python single-character `str.replace`. -/
def replace_char (a b : Char) (l : List Char) : List Char :=
  l.map (fun c => if c = a then b else c)

/-- The anchor text of one fake link (generate_dynamic_tarpit_page lines
289-295): last path segment, up to the first dot, underscores and hyphens
to spaces, capitalized; "Resource Link" when empty. -/
def link_text_of (link : String) : String :=
  let seg := ((split_on_char '/' link.data).getLastD [])
  let base := ((split_on_char '.' seg).headD [])
  let txt := py_capitalize (replace_char '-' ' ' (replace_char '_' ' ' base))
  if txt.isEmpty then "Resource Link" else String.mk txt

/-- The `<ul>` block assembled from the fake links (lines 288-296). -/
def link_html_of (links : List String) : String :=
  (links.foldl
    (fun acc link =>
      acc ++ "    <li><a href=\"" ++ link ++ "\">" ++ link_text_of link ++ "</a></li>\n")
    "<ul>\n") ++ "</ul>\n"

/-- Python `str.split()` on the space character, dropping empty fields. -/
def py_split_ws (l : List Char) : List (List Char) :=
  (split_on_char ' ' l).filter (fun seg => ¬ seg.isEmpty)

/-- Model of `generate_dynamic_tarpit_page` (lines 276-328): Markov body, seven
fake links, a 2-4 character page title, assembled into the fixed HTML
template of the source f-string. -/
def generate_dynamic_tarpit_page (db : MarkovDb) (wid : String → ℕ) (g : RngStream)
    (fuel : ℕ) : String :=
  let rc := generate_markov_text_from_db db wid g 15 fuel 0
  let rl := generate_fake_links g 7 rc.2
  let link_html := link_html_of rl.1
  let tlen := py_randint 2 4 (g rl.2)
  let rt := generate_random_page_name g (rl.2 + 1) tlen
  let page_title :=
    join_space ((py_split_ws rt.1.data).map (fun w => String.mk (py_capitalize w)))
  "<!DOCTYPE html>\n<html lang=\"en\">\n<head>\n    <meta charset=\"UTF-8\">\n    <title>"
    ++ page_title
    ++ " - System Documentation</title>\n    <meta name=\"robots\" content=\"noindex, nofollow\">\n    <meta name=\"generator\" content=\"AntiScrape Tarpit v1.1-IIS\">\n    <style>\n        body \x7b font-family: \x27Courier New\x27, Courier, monospace; background-color: #f0f0f0; color: #333; padding: 2em; line-height: 1.6; \x7d\n        h1 \x7b border-bottom: 1px solid #ccc; padding-bottom: 0.5em; color: #555; \x7d\n        h2 \x7b color: #666; margin-top: 2em; \x7d\n        a \x7b color: #3478af; text-decoration: none; \x7d\n        a:hover \x7b text-decoration: underline; \x7d\n        ul \x7b list-style-type: square; padding-left: 2em; \x7d\n        p \x7b text-align: justify; \x7d\n        .footer-link \x7b display: inline-block; margin-top: 40px; font-size: 0.8em; color: #aaa; visibility: hidden; \x7d\n    </style>\n</head>\n<body>\n    <h1>"
    ++ page_title
    ++ "</h1>\n    "
    ++ rc.1
    ++ "\n    <h2>Further Reading:</h2>\n    "
    ++ link_html
    ++ "\n    <a href=\"/internal-docs/admin-credentials.zip\" class=\"footer-link\">Admin Console Credentials</a>\n</body>\n</html>"

/-- A transition table whose state (1, 1) has two equal-frequency rows,
returned in one of the two orders the database may produce. -/
def db_rows_fst : MarkovDb := fun p1 p2 =>
  if p1 = 1 ∧ p2 = 1 then [("alpha", 1), ("beta", 1)] else []

/-- The same table state with the tied rows in the other order. -/
def db_rows_snd : MarkovDb := fun p1 p2 =>
  if p1 = 1 ∧ p2 = 1 then [("beta", 1), ("alpha", 1)] else []

/-- The word table for the two words of the tied state. -/
def word_id_ab : String → ℕ :=
  fun w => if w = "alpha" then 2 else if w = "beta" then 3 else 1

/-- One fixed PRNG stream (what one fixed seed produces). -/
def zero_stream : RngStream := fun _ => 0

set_option maxRecDepth 40000 in
/-- Claim C4: the tie-break among equal-frequency transition rows comes
from the `random()` of the database itself (the `ORDER BY s.freq DESC, random()`
clause), not from the seeded request PRNG.  The two row orders below are
permutations of one another (the same Markov DB state) and both are sorted
by descending frequency (both are possible results of the same query), yet
with the PRNG stream held fixed — the same seed — the generated HTML
documents differ byte for byte. -/
theorem C4_db_tiebreak_not_deterministic :
    (∀ p1 p2, (db_rows_fst p1 p2).Perm (db_rows_snd p1 p2))
    ∧ (∀ p1 p2, (db_rows_fst p1 p2).Pairwise (fun a b => b.2 ≤ a.2))
    ∧ (∀ p1 p2, (db_rows_snd p1 p2).Pairwise (fun a b => b.2 ≤ a.2))
    ∧ generate_dynamic_tarpit_page db_rows_fst word_id_ab zero_stream 300
      ≠ generate_dynamic_tarpit_page db_rows_snd word_id_ab zero_stream 300 := by
  refine ⟨?_, ?_, ?_, ?_⟩
  · intro p1 p2
    unfold db_rows_fst db_rows_snd
    by_cases h : p1 = 1 ∧ p2 = 1
    · rw [if_pos h, if_pos h]
      exact List.Perm.swap _ _ _
    · rw [if_neg h, if_neg h]
  · intro p1 p2
    unfold db_rows_fst
    by_cases h : p1 = 1 ∧ p2 = 1
    · rw [if_pos h]
      decide
    · rw [if_neg h]
      exact List.Pairwise.nil
  · intro p1 p2
    unfold db_rows_snd
    by_cases h : p1 = 1 ∧ p2 = 1
    · rw [if_pos h]
      decide
    · rw [if_neg h]
      exact List.Pairwise.nil
  · decide
